import Mathlib

/-!
Shallow embedding of the PhishGuard URL risk-scoring engine
(`ml_predictor.py`, class `PhishingPredictor`, v3.1.2).

Strings are modelled as Lean `String`/`List Char`; Python floats as `ℚ`
(all arithmetic in the scorer is on small decimal constants, where rational
and IEEE results coincide); Python ints as `ℤ`/`ℕ`.  `urllib.parse.urlparse`
is modelled for the two components the engine reads (`scheme`, `netloc`),
including its tab/CR/LF stripping and its `ValueError` on unbalanced square
brackets in the authority (the parse-failure mode relevant here), as an
`Option`-returning function.  `str.lower` is modelled on the ASCII range,
which covers every keyword/domain constant in the program.  Regular
expressions appearing in the source are specialised to direct decidable
matchers for the exact patterns used.
-/

/-! ## Basic string helpers -/

/-- ASCII lower-casing of one character (model of `str.lower` on the
characters the engine compares against, which are all ASCII). -/
def asciiLower (c : Char) : Char :=
  if 'A' ≤ c ∧ c ≤ 'Z' then Char.ofNat (c.toNat + 32) else c

/-- Lower-case a character list. -/
def lowerList (cs : List Char) : List Char := cs.map asciiLower

def isAsciiAlpha (c : Char) : Bool :=
  ('a' ≤ c && c ≤ 'z') || ('A' ≤ c && c ≤ 'Z')

def isLowerAZ (c : Char) : Bool := 'a' ≤ c && c ≤ 'z'

def isDigitChar (c : Char) : Bool := '0' ≤ c && c ≤ '9'

/-- `\w` of Python `re`, restricted to ASCII (the inputs at stake are ASCII). -/
def isWordChar (c : Char) : Bool :=
  isDigitChar c || isAsciiAlpha c || c = '_'

/-- `pat in l` on character lists (Python's substring containment). -/
def listInfix (pat : List Char) : List Char → Bool
  | [] => pat.isEmpty
  | c :: rest => pat.isPrefixOf (c :: rest) || listInfix pat rest

/-- Number of starting positions at which `pat` occurs in the list
(Python `str.count`-style occurrence counting, all positions). -/
def countSubstrAux (pat : List Char) : List Char → ℕ
  | [] => if pat = [] then 1 else 0
  | c :: rest =>
      (if pat.isPrefixOf (c :: rest) then 1 else 0) + countSubstrAux pat rest

/-- Occurrences of `pat` in `s` (by starting position). -/
def countSubstr (s pat : String) : ℕ := countSubstrAux pat.toList s.toList

/-! ## Model of `urllib.parse.urlparse` (scheme and netloc components) -/

/-- The scheme/netloc part of `urlparse`'s result that the engine reads. -/
structure ParseResult where
  scheme : String
  netloc : String
deriving DecidableEq

/-- Characters allowed in a URL scheme (`scheme_chars` of `urllib.parse`). -/
def scheme_chars : List Char :=
  ("abcdefghijklmnopqrstuvwxyzABCDEFGHIJKLMNOPQRSTUVWXYZ0123456789+-.").toList

/-- Split a leading `scheme:` off the URL, as `urlsplit` does: the text
before the first `:` is a scheme when the colon is not first, the head is an
ASCII letter and every character before the colon is a scheme character;
the scheme is returned lower-cased. -/
def splitScheme (cs : List Char) : String × List Char :=
  let i := cs.findIdx (· = ':')
  let headAlpha : Bool := match cs.head? with | some c => isAsciiAlpha c | none => false
  if i < cs.length then
    if decide (0 < i) && headAlpha && (cs.take i).all (fun c => scheme_chars.contains c) then
      (⟨lowerList (cs.take i)⟩, cs.drop (i + 1))
    else ("", cs)
  else ("", cs)

/-- Model of `urlparse url` restricted to the `scheme`/`netloc` fields:
removes tab/CR/LF, splits the scheme, and if the remainder starts with
`//` reads the netloc up to the first `/`, `?` or `#`.  Returns `none` for
the `ValueError` raised on an authority with unbalanced `[`/`]`
("Invalid IPv6 URL"). -/
def urlparse (url : String) : Option ParseResult :=
  let cs := url.toList.filter (fun c => !(c = '\t' || c = '\r' || c = '\n'))
  let sr := splitScheme cs
  if sr.2.take 2 = ['/', '/'] then
    let netloc := (sr.2.drop 2).takeWhile (fun c => !(c = '/' || c = '?' || c = '#'))
    if (netloc.contains '[' && !netloc.contains ']')
        || (netloc.contains ']' && !netloc.contains '[') then
      none
    else some ⟨sr.1, ⟨netloc⟩⟩
  else some ⟨sr.1, ""⟩

/-! ## Module-level constant tables of `ml_predictor.py` -/

/-- `suspicious_keywords` (module-level list, lines 20-24). -/
def suspicious_keywords : List String :=
  ["login", "secure", "account", "update", "bank", "paypal", "verify",
   "confirm", "signin", "password", "suspended", "limited", "expire",
   "urgent", "immediate", "click", "here", "now", "free", "winner"]

/-- `TRUSTED_DOMAINS` (a Python set; only membership is consumed, so list
order is irrelevant to the boolean result). -/
def TRUSTED_DOMAINS : List String :=
  ["google.com", "facebook.com", "twitter.com", "instagram.com", "linkedin.com",
   "amazon.com", "microsoft.com", "apple.com", "github.com", "stackoverflow.com",
   "youtube.com", "gmail.com", "outlook.com", "yahoo.com", "reddit.com",
   "wikipedia.org", "mozilla.org", "github.io", "cloudflare.com", "netflix.com",
   "spotify.com", "dropbox.com", "adobe.com", "salesforce.com", "zoom.us",
   "discord.com", "slack.com", "twitch.tv", "medium.com", "wordpress.com"]

/-- `MALAYSIAN_EDU_DOMAINS`. -/
def MALAYSIAN_EDU_DOMAINS : List String :=
  ["uthm.edu.my", "utm.my", "upm.edu.my", "um.edu.my",
   "usm.my", "ukm.my", "utp.edu.my", "mmu.edu.my"]

/-! ## `TRUSTED_TLD_PATTERNS` as direct matchers

Each regex in the Python list is `$`-anchored, so each is a decidable
suffix-shape test on the domain. -/

/-- `re.search(r"\.BASE\.[a-z]{2}$", d)`: `d` ends in `.BASE.` followed by
exactly two lower-case ASCII letters. -/
def endsDotBaseDotCC (base : List Char) (d : List Char) : Bool :=
  match d.reverse with
  | b :: a :: '.' :: rest =>
      isLowerAZ a && isLowerAZ b && (base.reverse ++ ['.']).isPrefixOf rest
  | _ => false

/-- `re.search(r"\.univ-[a-z]+\.fr$", d)`. -/
def univFrMatch (d : List Char) : Bool :=
  match d.reverse with
  | 'r' :: 'f' :: '.' :: rest =>
      let run := rest.takeWhile isLowerAZ
      decide (1 ≤ run.length)
        && (['-', 'v', 'i', 'n', 'u', '.']).isPrefixOf (rest.dropWhile isLowerAZ)
  | _ => false

/-- Disjunction of the `TRUSTED_TLD_PATTERNS` regex tests, in source order. -/
def tldPatternMatch (d : List Char) : Bool :=
  (".edu").toList.isSuffixOf d
  || endsDotBaseDotCC (("edu").toList) d
  || endsDotBaseDotCC (("ac").toList) d
  || univFrMatch d
  || (".gov").toList.isSuffixOf d
  || endsDotBaseDotCC (("gov").toList) d
  || (".mil").toList.isSuffixOf d
  || endsDotBaseDotCC (("mil").toList) d
  || (".uthm.edu.my").toList.isSuffixOf d
  || (".utm.my").toList.isSuffixOf d
  || (".upm.edu.my").toList.isSuffixOf d
  || (".um.edu.my").toList.isSuffixOf d

/-! ## `is_trusted_domain` -/

/-- `prefixes_to_remove` (in source order; the loop strips the first
matching entry and breaks). -/
def prefixes_to_remove : List String :=
  ["www.", "mail.", "webmail.", "m.", "mobile.", "app.", "api."]

/-- Strip the first matching entry of `prefixes_to_remove`, once. -/
def stripHostPrefixOnce (d : List Char) : List Char :=
  match prefixes_to_remove.find? (fun p => p.toList.isPrefixOf d) with
  | some p => d.drop p.length
  | none => d

/-- Host normalisation of `is_trusted_domain`: lower-case the netloc,
strip one known prefix, drop a trailing `:port`. -/
def normalizeDomain (netloc : String) : List Char :=
  ((stripHostPrefixOnce (lowerList netloc.toList)).takeWhile (· ≠ ':'))

/-- `university_keywords` (local list in check 7). -/
def university_keywords : List String :=
  ["university", "univ", "college", "school", "academy"]

/-- The suspicious-word blacklist of check 7. -/
def edu_blacklist : List String :=
  ["login", "secure", "verify", "update"]

/-- Check 7, first half: the domain contains an education-sounding keyword. -/
def eduKeywordHit (d : List Char) : Bool :=
  university_keywords.any (fun k => listInfix k.toList d)

/-- Check 7, second half: the domain contains a blacklisted word. -/
def eduSuspiciousHit (d : List Char) : Bool :=
  edu_blacklist.any (fun k => listInfix k.toList d)

/-- Checks 1-7 of `is_trusted_domain` on the normalised domain.  Every
check either returns `True` or falls through, so the result is their
disjunction in source order. -/
def trustedChecks (d : List Char) : Bool :=
  TRUSTED_DOMAINS.any (fun t => d == t.toList || ('.' :: t.toList).isSuffixOf d)
  || MALAYSIAN_EDU_DOMAINS.any (fun t => d == t.toList || ('.' :: t.toList).isSuffixOf d)
  || tldPatternMatch d
  || ((".gov").toList.isSuffixOf d || (".mil").toList.isSuffixOf d)
  || (".edu").toList.isSuffixOf d
  || listInfix (".ac.").toList d
  || (eduKeywordHit d && !eduSuspiciousHit d)

/-- `is_trusted_domain` (boolean component).  The Python method also
returns a human-readable reason string that is consumed only by logging;
every downstream decision reads only the boolean.  A parse error is caught
and reported as not trusted. -/
def is_trusted_domain (url : String) : Bool :=
  match urlparse url with
  | none => false
  | some p => trustedChecks (normalizeDomain p.netloc)

/-! ## Feature extraction -/

/-- The feature dictionary.  `extract_features` always populates all five
keys; the rule scorer reads them with `dict.get` defaults, so each field is
an `Option` to model a possibly missing key. -/
structure Features where
  url_Length : Option ℚ
  special_Chars : Option ℚ
  num_Subdomains : Option ℚ
  suspicious_Keywords : Option ℚ
  has_HTTPS : Option ℚ
deriving DecidableEq

/-- The all-zero feature vector returned on a parse failure. -/
def zeroFeatures : Features := ⟨some 0, some 0, some 0, some 0, some 0⟩

/-- A features dictionary with every key missing (Python `{}`), for the
`dict.get` default behaviour of the rule scorer. -/
def emptyFeatures : Features := ⟨none, none, none, none, none⟩

/-- The nine characters counted by `Special_Chars` (`"@/?=_-&%#"`). -/
def special_chars_list : List Char :=
  ['@', '/', '?', '=', '_', '-', '&', '%', '#']

/-- `sum(url.count(c) for c in "@/?=_-&%#")`. -/
def specialCount (url : String) : ℕ :=
  (special_chars_list.map (fun c => url.toList.count c)).sum

/-- `extract_features`: URL length, special-character count, subdomain
count, suspicious-keyword count (one per keyword present as a substring of
the lower-cased URL), HTTPS flag.  A parse failure is caught and yields the
all-zero vector. -/
def extract_features (url : String) : Features :=
  match urlparse url with
  | none => zeroFeatures
  | some parsed =>
      let url_length : ℚ := (url.length : ℚ)
      let special_chars : ℚ := (specialCount url : ℚ)
      let num_subdomains : ℚ :=
        if parsed.netloc ≠ "" then
          ((max 0 ((parsed.netloc.toList.count '.' : ℤ) - 1) : ℤ) : ℚ)
        else 0
      let suspicious_count : ℚ :=
        ((suspicious_keywords.filter
            (fun k => listInfix k.toList (lowerList url.toList))).length : ℚ)
      let has_https : ℚ := if parsed.scheme = "https" then 1 else 0
      ⟨some url_length, some special_chars, some num_subdomains,
       some suspicious_count, some has_https⟩

/-! ## Rule scorer (`predict_with_rules`) -/

/-- Length band: `>150:+30; elif >100:+20; elif >80:+10`. -/
def lengthPenalty (url_length : ℚ) : ℕ :=
  if url_length > 150 then 30
  else if url_length > 100 then 20
  else if url_length > 80 then 10
  else 0

/-- `special_char_ratio = special_chars / max(url_length, 1)`. -/
def special_char_ratio (special_chars url_length : ℚ) : ℚ :=
  special_chars / max url_length 1

/-- Special-character band: `ratio>0.4:+25; elif count>20:+20; elif count>15:+10`. -/
def specialPenalty (url_length special_chars : ℚ) : ℕ :=
  if special_char_ratio special_chars url_length > (0.4 : ℚ) then 25
  else if special_chars > 20 then 20
  else if special_chars > 15 then 10
  else 0

/-- Suspicious-keyword band: `>=4:+40; >=3:+30; >=2:+20; >=1:+10`. -/
def keywordPenalty (suspicious_kw : ℚ) : ℕ :=
  if suspicious_kw ≥ 4 then 40
  else if suspicious_kw ≥ 3 then 30
  else if suspicious_kw ≥ 2 then 20
  else if suspicious_kw ≥ 1 then 10
  else 0

/-- HTTPS band: `has_https == 0:+20`. -/
def httpsPenalty (has_https : ℚ) : ℕ :=
  if has_https = 0 then 20 else 0

/-- Subdomain band: `>6:+20; elif >4:+10`. -/
def subdomainPenalty (num_subdomains : ℚ) : ℕ :=
  if num_subdomains > 6 then 20
  else if num_subdomains > 4 then 10
  else 0

/-! The dotted-quad test `re.search(r"\b(?:[0-9]{1,3}\.){3}[0-9]{1,3}\b", url)`,
specialised to a decidable matcher: a match exists iff at some position with
a word boundary before it there are four runs of 1-3 digits separated by
`.`, followed by a word boundary. -/

/-- Consume exactly `n` digits, returning the remainder. -/
def takeDigits : ℕ → List Char → Option (List Char)
  | 0, cs => some cs
  | n + 1, c :: cs => if isDigitChar c then takeDigits n cs else none
  | _ + 1, [] => none

/-- Consume `n` digits then a literal dot. -/
def segDot (n : ℕ) (cs : List Char) : Option (List Char) :=
  match takeDigits n cs with
  | some ('.' :: rest) => some rest
  | _ => none

/-- Consume `n` digits then require a word boundary (end of string or a
non-word character). -/
def lastSeg (n : ℕ) (cs : List Char) : Bool :=
  match takeDigits n cs with
  | some [] => true
  | some (c :: _) => !isWordChar c
  | none => false

/-- Does `(?:[0-9]{1,3}\.){3}[0-9]{1,3}\b` match at this position (with
backtracking over the four run lengths)? -/
def quadAt (cs : List Char) : Bool :=
  ([1, 2, 3]).any fun d1 =>
    match segDot d1 cs with
    | none => false
    | some cs1 =>
        ([1, 2, 3]).any fun d2 =>
          match segDot d2 cs1 with
          | none => false
          | some cs2 =>
              ([1, 2, 3]).any fun d3 =>
                match segDot d3 cs2 with
                | none => false
                | some cs3 => ([1, 2, 3]).any fun d4 => lastSeg d4 cs3

/-- Scan every position, checking the leading word boundary there. -/
def ipSearch (prev : Option Char) : List Char → Bool
  | [] => false
  | c :: rest =>
      ((match prev with | none => true | some pc => !isWordChar pc)
        && quadAt (c :: rest))
      || ipSearch (some c) rest

/-- `re.search` of the dotted-quad pattern over the whole URL. -/
def hasIPPattern (url : String) : Bool := ipSearch none url.toList

/-- `suspicious_tlds` list. -/
def suspicious_tlds : List String :=
  [".tk", ".ml", ".ga", ".cf", ".click", ".download"]

/-- IP-literal penalty: +25 when the dotted-quad pattern occurs. -/
def ipPenalty (url : String) : ℕ :=
  if hasIPPattern url then 25 else 0

/-- Suspicious-TLD penalty: +15 when any listed TLD is a substring of the
lower-cased URL. -/
def tldPenalty (url : String) : ℕ :=
  if suspicious_tlds.any (fun t => listInfix t.toList (lowerList url.toList)) then 15
  else 0

/-- Non-ASCII penalty: +15 when any character has code point above 127. -/
def asciiPenalty (url : String) : ℕ :=
  if url.toList.any (fun c => 127 < c.toNat) then 15 else 0

/-- The accumulated rule score before capping: the bands fire independently
and are summed in source order.  Feature values are read with the
`dict.get` defaults of lines 257-261 (note `Has_HTTPS` defaults to `1`,
the others to `0`). -/
def ruleScore (features : Features) (url : String) : ℕ :=
  lengthPenalty (features.url_Length.getD 0)
    + specialPenalty (features.url_Length.getD 0) (features.special_Chars.getD 0)
    + keywordPenalty (features.suspicious_Keywords.getD 0)
    + httpsPenalty (features.has_HTTPS.getD 1)
    + subdomainPenalty (features.num_Subdomains.getD 0)
    + ipPenalty url
    + tldPenalty url
    + asciiPenalty url

/-- A scorer verdict `(label, confidence, risk_score)`. -/
structure ScoreResult where
  label : String
  confidence : ℚ
  risk_score : ℤ
deriving DecidableEq

/-- `predict_with_rules`: trusted-domain override to `("Safe", 98.0, 2)`,
otherwise cap the score at 100 and apply the threshold bands of
lines 333-345. -/
def predict_with_rules (features : Features) (url : String) : ScoreResult :=
  if is_trusted_domain url then ⟨"Safe", 98, 2⟩
  else
    let risk_score : ℤ := min ((ruleScore features url : ℤ)) 100
    if risk_score ≥ 70 then
      ⟨"Phishing", min 95 ((risk_score : ℚ)), risk_score⟩
    else if risk_score ≥ 50 then
      ⟨"Safe", min 70 ((100 : ℚ) - (risk_score : ℚ)), risk_score⟩
    else
      ⟨"Safe", min 95 ((100 : ℚ) - (risk_score : ℚ) + 10), risk_score⟩

/-! ## Model scorer (`predict_with_xgboost`) -/

/-- An abstract Python exception (payload irrelevant to control flow). -/
inductive PyErr where
  | exc : String → PyErr

/-- Python `int()` on a rational: truncation toward zero. -/
def pyInt (q : ℚ) : ℤ :=
  if 0 ≤ q then q.floor else q.ceil

/-- `predict_with_xgboost`.  The loaded XGBoost booster is opaque to this
repository (an external artifact), so the inference call
`self.model.predict(dmatrix)[0]` is abstracted as a function from the
feature vector to either a probability or a raised exception; the
surrounding `try/except` falls back to `predict_with_rules` on error.
The trusted-domain override to `("Safe", 97.0, 3)` runs before inference. -/
def predict_with_xgboost (model : Features → Except PyErr ℚ)
    (features : Features) (url : String) : ScoreResult :=
  if is_trusted_domain url then ⟨"Safe", 97, 3⟩
  else
    match model features with
    | Except.error _ => predict_with_rules features url
    | Except.ok p =>
        if p > (0.7 : ℚ) then
          ⟨"Phishing", p * 100, pyInt (p * 100)⟩
        else if p > (0.3 : ℚ) then
          ⟨"Safe", (1 - p) * 85, pyInt (p * 100)⟩
        else
          ⟨"Safe", (1 - p) * 100, pyInt (p * 100)⟩

/-! ## Orchestrator (`predict`) -/

/-- The full verdict returned by `predict`. -/
structure Verdict where
  label : String
  confidence : ℚ
  risk_score : ℤ
  features : Features
deriving DecidableEq

/-- The body of `predict` (lines 354-373): extract features, dispatch to
the model scorer when a model is loaded, else to the rule scorer, and
package the verdict.  (The call also logs a summary line; logging is pure
observability and is not modelled.) -/
def dispatchScorer (model_loaded : Bool) (model : Features → Except PyErr ℚ)
    (url : String) : Verdict :=
  let features := extract_features url
  let r :=
    if model_loaded then predict_with_xgboost model features url
    else predict_with_rules features url
  ⟨r.label, r.confidence, r.risk_score, features⟩

/-- The pipeline inside `predict`'s `try:` block, as a fallible
computation.  Every component of the embedding is total (each catches its
own errors, as in the source), so the pipeline always succeeds; the
`Except` type records where an unexpected exception would surface. -/
def predictPipeline (model_loaded : Bool) (model : Features → Except PyErr ℚ)
    (url : String) : Except PyErr Verdict :=
  Except.ok (dispatchScorer model_loaded model url)

/-- The `except` handler of `predict` (lines 375-379): an error is
converted into the fixed default verdict `("Safe", 75.0, 25)` together
with a re-extracted feature vector. -/
def predictHandler (url : String) (r : Except PyErr Verdict) : Verdict :=
  match r with
  | Except.ok v => v
  | Except.error _ => ⟨"Safe", 75, 25, extract_features url⟩

/-- `predict`: the pipeline wrapped in the catch-all handler. -/
def predict (model_loaded : Bool) (model : Features → Except PyErr ℚ)
    (url : String) : Verdict :=
  predictHandler url (predictPipeline model_loaded model url)

/-- The rule path of `predict` (model absent): extract features, then
score by rules. -/
def rulePath (url : String) : ScoreResult :=
  predict_with_rules (extract_features url) url

/-- Restatement of the spec's final-decision formula for the rule scorer
(spec §4.3), as a predicate on the program's own verdict; used to compare
the code's verdict against the spec's words. -/
def ruleVerdictSpec (features : Features) (url : String) : Prop :=
  (predict_with_rules features url).risk_score
      = min ((ruleScore features url : ℤ)) 100 ∧
  (if (predict_with_rules features url).risk_score ≥ 70 then
      (predict_with_rules features url).label = "Phishing" ∧
      (predict_with_rules features url).confidence
        = min 95 (((predict_with_rules features url).risk_score : ℚ))
   else if (predict_with_rules features url).risk_score ≥ 50 then
      (predict_with_rules features url).label = "Safe" ∧
      (predict_with_rules features url).confidence
        = min 70 (100 - (((predict_with_rules features url).risk_score : ℚ)))
   else
      (predict_with_rules features url).label = "Safe" ∧
      (predict_with_rules features url).confidence
        = min 95 (100 - (((predict_with_rules features url).risk_score : ℚ)) + 10))

/-! ## Helper lemmas -/

/-- `Rat.floor` agrees with the floor of the `FloorRing` instance. -/
theorem ratFloor_eq_intFloor (q : ℚ) : q.floor = ⌊q⌋ :=
  (Rat.floor_def' q).trans Rat.floor_def.symm

/-- Python `int()` is the floor on nonnegative rationals. -/
theorem pyInt_eq_floor_of_nonneg {q : ℚ} (h : 0 ≤ q) : pyInt q = ⌊q⌋ := by
  rw [pyInt, if_pos h, ratFloor_eq_intFloor]

/-- On a non-trusted URL the rule scorer takes the banded branch. -/
theorem predict_with_rules_untrusted (f : Features) (url : String)
    (h : is_trusted_domain url = false) :
    predict_with_rules f url =
      (if (min ((ruleScore f url : ℤ)) 100) ≥ 70 then
        ⟨"Phishing", min 95 (((min ((ruleScore f url : ℤ)) 100 : ℤ) : ℚ)),
          min ((ruleScore f url : ℤ)) 100⟩
      else if (min ((ruleScore f url : ℤ)) 100) ≥ 50 then
        ⟨"Safe", min 70 ((100 : ℚ) - ((min ((ruleScore f url : ℤ)) 100 : ℤ) : ℚ)),
          min ((ruleScore f url : ℤ)) 100⟩
      else
        ⟨"Safe", min 95 ((100 : ℚ) - ((min ((ruleScore f url : ℤ)) 100 : ℤ) : ℚ) + 10),
          min ((ruleScore f url : ℤ)) 100⟩) := by
  unfold predict_with_rules
  rw [h]
  simp

/-! ## Claims -/

/-- C1: for every URL the Trust Matcher accepts, prediction returns the
label `Safe` with exactly confidence 97.0 and risk 3 on the model path and
exactly confidence 98.0 and risk 2 on the rule path, for every feature
vector and every model function — i.e. without running either scorer's
scoring logic on the features. -/
theorem trusted_override_constants (model : Features → Except PyErr ℚ)
    (features : Features) (url : String) (h : is_trusted_domain url = true) :
    predict_with_xgboost model features url = ⟨"Safe", 97, 3⟩ ∧
    predict_with_rules features url = ⟨"Safe", 98, 2⟩ := by
  constructor
  · unfold predict_with_xgboost
    rw [h]
    simp
  · unfold predict_with_rules
    rw [h]
    simp

/-- Witness for C1 at the trusted URL `https://google.com`. -/
theorem trusted_override_constants_witness :
    is_trusted_domain ("https://google.com") = true ∧
    (predict_with_xgboost (fun _ => Except.ok 0) zeroFeatures ("https://google.com")
        = ⟨"Safe", 97, 3⟩ ∧
      predict_with_rules zeroFeatures ("https://google.com") = ⟨"Safe", 98, 2⟩) :=
  ⟨by decide,
   trusted_override_constants (fun _ => Except.ok 0) zeroFeatures
     ("https://google.com") (by decide)⟩

/-- C2: for every non-trusted feature vector the rule scorer's final
verdict satisfies the spec formula: `risk_score = min(score, 100)`;
`risk_score ≥ 70` gives Phishing with confidence `min(95, risk_score)`,
`risk_score ≥ 50` gives Safe with confidence `min(70, 100 - risk_score)`,
otherwise Safe with confidence `min(95, 100 - risk_score + 10)` — so a
score of exactly 70 is Phishing and 69 is Safe. -/
theorem rule_final_verdict_formula (features : Features) (url : String)
    (h : is_trusted_domain url = false) :
    ruleVerdictSpec features url := by
  unfold ruleVerdictSpec
  rw [predict_with_rules_untrusted features url h]
  by_cases h1 : (min ((ruleScore features url : ℤ)) 100) ≥ 70
  · simp [h1]
  · by_cases h2 : (min ((ruleScore features url : ℤ)) 100) ≥ 50
    · simp [h1, h2]
    · simp [h1, h2]

/-- Witness for C2 at a feature vector whose accumulated score is exactly
70 (length 151 → +30, four keywords → +40) on the non-trusted URL `x`:
the verdict is Phishing. -/
theorem rule_final_verdict_formula_witness :
    is_trusted_domain ("x") = false ∧
    ruleVerdictSpec ⟨some 151, some 0, some 0, some 4, some 1⟩ ("x") ∧
    predict_with_rules ⟨some 151, some 0, some 0, some 4, some 1⟩ ("x")
      = ⟨"Phishing", 70, 70⟩ ∧
    predict_with_rules ⟨some 150, some 0, some 0, some 4, some 1⟩ ("x")
      = ⟨"Safe", 40, 60⟩ := by
  refine ⟨by decide,
    rule_final_verdict_formula ⟨some 151, some 0, some 0, some 4, some 1⟩ ("x") (by decide),
    by with_unfolding_all decide, by with_unfolding_all decide⟩

/-- C3 counterexample: the claim states `risk_score = round(p*100)`, but
the code computes `int(p*100)` (truncation).  At probability
`p = 143/200 = 0.715` on the non-trusted URL `http://example.org` the
model scorer returns risk 71 while `round(71.5) = 72`. -/
theorem model_band_round_counterexample :
    is_trusted_domain ("http://example.org") = false ∧
    predict_with_xgboost (fun _ => Except.ok (143/200)) zeroFeatures ("http://example.org")
      = ⟨"Phishing", 143/2, 71⟩ ∧
    (predict_with_xgboost (fun _ => Except.ok (143/200)) zeroFeatures
        ("http://example.org")).risk_score
      ≠ round (((143 : ℚ)/200) * 100) := by
  have h1 : predict_with_xgboost (fun _ => Except.ok (143/200)) zeroFeatures
      ("http://example.org") = ⟨"Phishing", 143/2, 71⟩ := by
    with_unfolding_all decide
  have h2 : round (((143 : ℚ)/200) * 100) = 72 := by with_unfolding_all decide
  refine ⟨by decide, h1, ?_⟩
  rw [h1, h2]
  decide

/-- C3 amended: for every probability `p ∈ [0,1]` the loaded model
produces on a non-trusted URL, the model scorer applies the bands
`p > 0.7` → Phishing with confidence `p*100`, `0.3 < p ≤ 0.7` → Safe with
confidence `(1-p)*85`, `p ≤ 0.3` → Safe with confidence `(1-p)*100`, and
in every band `risk_score = ⌊p*100⌋` (Python `int()` truncation), not
`round(p*100)`. -/
theorem model_bands_amended (model : Features → Except PyErr ℚ)
    (features : Features) (url : String) (p : ℚ)
    (h : is_trusted_domain url = false) (hm : model features = Except.ok p)
    (h0 : 0 ≤ p) (_hub : p ≤ 1) :
    predict_with_xgboost model features url =
      (if p > (0.7 : ℚ) then ⟨"Phishing", p * 100, ⌊p * 100⌋⟩
       else if p > (0.3 : ℚ) then ⟨"Safe", (1 - p) * 85, ⌊p * 100⌋⟩
       else ⟨"Safe", (1 - p) * 100, ⌊p * 100⌋⟩) := by
  have hq : 0 ≤ p * 100 := by positivity
  unfold predict_with_xgboost
  rw [h, hm]
  simp only [Bool.false_eq_true, if_false]
  rw [pyInt_eq_floor_of_nonneg hq]

/-- Witness for C3 amended at `p = 1/2` on `http://example.org`. -/
theorem model_bands_amended_witness :
    is_trusted_domain ("http://example.org") = false ∧
    (0 : ℚ) ≤ 1/2 ∧ (1/2 : ℚ) ≤ 1 ∧
    predict_with_xgboost (fun _ => Except.ok (1/2)) zeroFeatures ("http://example.org") =
      (if (1/2 : ℚ) > (0.7 : ℚ) then ⟨"Phishing", (1/2 : ℚ) * 100, ⌊(1/2 : ℚ) * 100⌋⟩
       else if (1/2 : ℚ) > (0.3 : ℚ) then ⟨"Safe", (1 - (1/2 : ℚ)) * 85, ⌊(1/2 : ℚ) * 100⌋⟩
       else ⟨"Safe", (1 - (1/2 : ℚ)) * 100, ⌊(1/2 : ℚ) * 100⌋⟩) :=
  ⟨by decide, by norm_num, by norm_num,
   model_bands_amended (fun _ => Except.ok (1/2)) zeroFeatures ("http://example.org")
     (1/2) (by decide) rfl (by norm_num) (by norm_num)⟩

/-- The keyword band is monotone in the keyword count. -/
theorem keywordPenalty_mono {q q' : ℚ} (h : q ≤ q') :
    keywordPenalty q ≤ keywordPenalty q' := by
  unfold keywordPenalty
  split_ifs <;> first | omega | linarith

/-- On a non-trusted URL, `risk_score` is the capped accumulated score. -/
theorem risk_score_untrusted (f : Features) (url : String)
    (h : is_trusted_domain url = false) :
    (predict_with_rules f url).risk_score = min ((ruleScore f url : ℤ)) 100 := by
  rw [predict_with_rules_untrusted f url h]
  split_ifs <;> rfl

/-- C4 counterexample: inserting one more occurrence of the suspicious
keyword `bank` into `http://a.com/loginbank` (rest of the URL unchanged)
destroys the only occurrence of `login`, dropping the keyword count from 2
to 1 and the rule-path risk score from 40 to 30 — a strict decrease. -/
theorem keyword_insertion_counterexample :
    suspicious_keywords.contains ("bank") = true ∧
    ("http://a.com/loginbank" : String) = "http://a.com/log" ++ "inbank" ∧
    ("http://a.com/logbankinbank" : String) = "http://a.com/log" ++ "bank" ++ "inbank" ∧
    countSubstr ("http://a.com/logbankinbank") ("bank")
      = countSubstr ("http://a.com/loginbank") ("bank") + 1 ∧
    (rulePath ("http://a.com/logbankinbank")).risk_score
      < (rulePath ("http://a.com/loginbank")).risk_score := by
  have h1 : rulePath ("http://a.com/loginbank") = ⟨"Safe", 70, 40⟩ := by
    with_unfolding_all decide
  have h2 : rulePath ("http://a.com/logbankinbank") = ⟨"Safe", 80, 30⟩ := by
    with_unfolding_all decide
  refine ⟨by decide, by decide, by decide, by decide, ?_⟩
  rw [h1, h2]
  decide

/-- C4 amended: the rule scorer's risk score is monotone in the
`Suspicious_Keywords` feature itself — raising the keyword count with the
URL and all other features unchanged never decreases `risk_score`.  (The
URL-insertion form of the claim fails because an insertion can destroy a
different keyword's only occurrence, see the counterexample.) -/
theorem rule_risk_monotone_in_keyword_feature (f : Features) (url : String)
    (q q' : ℚ) (h : q ≤ q') :
    (predict_with_rules { f with suspicious_Keywords := some q } url).risk_score ≤
      (predict_with_rules { f with suspicious_Keywords := some q' } url).risk_score := by
  by_cases ht : is_trusted_domain url = true
  · unfold predict_with_rules
    rw [ht]
    simp
  · have hf : is_trusted_domain url = false := by
      revert ht
      cases is_trusted_domain url <;> simp
    rw [risk_score_untrusted _ _ hf, risk_score_untrusted _ _ hf]
    have hs : ruleScore { f with suspicious_Keywords := some q } url
        ≤ ruleScore { f with suspicious_Keywords := some q' } url := by
      unfold ruleScore
      have hk := keywordPenalty_mono h
      simp only [Option.getD_some]
      omega
    exact min_le_min (by exact_mod_cast hs) le_rfl

/-- Witness for C4 amended at keyword counts 1 ≤ 3 on the URL `x`. -/
theorem rule_risk_monotone_in_keyword_feature_witness :
    (1 : ℚ) ≤ 3 ∧
    (predict_with_rules { zeroFeatures with suspicious_Keywords := some 1 } ("x")).risk_score ≤
      (predict_with_rules { zeroFeatures with suspicious_Keywords := some 3 } ("x")).risk_score :=
  ⟨by norm_num,
   rule_risk_monotone_in_keyword_feature zeroFeatures ("x") 1 3 (by norm_num)⟩

/-- C5 counterexample: the rule path scores
`https://paypal-secure-login.suspicious-domain.tk` as Safe with risk 45
(keywords `login`, `secure`, `paypal` → +30; suspicious TLD → +15), so the
claimed Phishing verdict with risk ≥ 70 is false. -/
theorem paypal_tk_counterexample :
    ¬((rulePath ("https://paypal-secure-login.suspicious-domain.tk")).label = "Phishing" ∧
      70 ≤ (rulePath ("https://paypal-secure-login.suspicious-domain.tk")).risk_score) := by
  have h : rulePath ("https://paypal-secure-login.suspicious-domain.tk")
      = ⟨"Safe", 65, 45⟩ := by
    with_unfolding_all decide
  rw [h]
  decide

/-- C5 amended: predicting `https://paypal-secure-login.suspicious-domain.tk`
via the rule path yields label Safe, confidence 65, risk score 45 (the
accumulated score 45 — three keyword hits +30 and suspicious TLD +15 —
stays below the 70 Phishing threshold). -/
theorem paypal_tk_amended :
    rulePath ("https://paypal-secure-login.suspicious-domain.tk") = ⟨"Safe", 65, 45⟩ ∧
    ruleScore (extract_features ("https://paypal-secure-login.suspicious-domain.tk"))
      ("https://paypal-secure-login.suspicious-domain.tk") = 45 := by
  constructor
  · with_unfolding_all decide
  · with_unfolding_all decide

/-- C6: for every input string, `extract_features` returns a mapping with
exactly the five declared keys (all five fields populated), every value
nonnegative; it never raises (it is a total function), and on a parse
failure it returns the all-zero feature mapping. -/
theorem extract_features_shape (s : String) :
    (∃ a, (extract_features s).url_Length = some a ∧ 0 ≤ a) ∧
    (∃ a, (extract_features s).special_Chars = some a ∧ 0 ≤ a) ∧
    (∃ a, (extract_features s).num_Subdomains = some a ∧ 0 ≤ a) ∧
    (∃ a, (extract_features s).suspicious_Keywords = some a ∧ 0 ≤ a) ∧
    (∃ a, (extract_features s).has_HTTPS = some a ∧ 0 ≤ a) ∧
    (urlparse s = none → extract_features s = zeroFeatures) := by
  cases hp : urlparse s with
  | none =>
      have hz : extract_features s = zeroFeatures := by
        unfold extract_features
        rw [hp]
      rw [hz]
      exact ⟨⟨0, rfl, le_refl 0⟩, ⟨0, rfl, le_refl 0⟩, ⟨0, rfl, le_refl 0⟩,
        ⟨0, rfl, le_refl 0⟩, ⟨0, rfl, le_refl 0⟩, fun _ => rfl⟩
  | some p =>
      have he : extract_features s =
          ⟨some ((s.length : ℚ)), some ((specialCount s : ℚ)),
           some (if p.netloc ≠ "" then
                   ((max 0 ((p.netloc.toList.count '.' : ℤ) - 1) : ℤ) : ℚ)
                 else 0),
           some (((suspicious_keywords.filter
                     (fun k => listInfix k.toList (lowerList s.toList))).length : ℚ)),
           some (if p.scheme = "https" then 1 else 0)⟩ := by
        unfold extract_features
        rw [hp]
      rw [he]
      refine ⟨⟨_, rfl, Nat.cast_nonneg _⟩, ⟨_, rfl, Nat.cast_nonneg _⟩,
        ⟨_, rfl, ?_⟩, ⟨_, rfl, Nat.cast_nonneg _⟩, ⟨_, rfl, ?_⟩,
        fun hc => Option.noConfusion hc⟩
      · split_ifs
        · exact_mod_cast le_max_left (0 : ℤ) _
        · exact le_refl 0
      · split_ifs
        · exact zero_le_one
        · exact le_refl 0

/-- Witness for C6's parse-failure clause at the unbalanced-bracket URL
`http://[`, on which the parser raises and extraction degrades to zeros. -/
theorem extract_features_shape_witness :
    urlparse ("http://[") = none ∧ extract_features ("http://[") = zeroFeatures :=
  ⟨by decide, (extract_features_shape ("http://[")).2.2.2.2.2 (by decide)⟩

/-- C7: `predict` is a total function of the URL (it never raises to the
caller), equal to the catch-all handler applied to the pipeline; the
handler converts any pipeline exception into the fixed default verdict
`("Safe", 75.0, 25)` with a re-extracted feature vector, and passes a
successful verdict through unchanged. -/
theorem predict_never_raises (model_loaded : Bool)
    (model : Features → Except PyErr ℚ) (url : String) (e : PyErr) (v : Verdict) :
    predict model_loaded model url
        = predictHandler url (predictPipeline model_loaded model url) ∧
    predictHandler url (Except.error e) = ⟨"Safe", 75, 25, extract_features url⟩ ∧
    predictHandler url (Except.ok v) = v :=
  ⟨rfl, rfl, rfl⟩

/-- C8: every URL that parses to a host whose normalised form contains an
education-sounding keyword and none of the blacklisted words is trusted. -/
theorem edu_sounding_domain_trusted (url : String) (p : ParseResult)
    (hp : urlparse url = some p)
    (hkw : eduKeywordHit (normalizeDomain p.netloc) = true)
    (hbl : eduSuspiciousHit (normalizeDomain p.netloc) = false) :
    is_trusted_domain url = true := by
  have ht : is_trusted_domain url = trustedChecks (normalizeDomain p.netloc) := by
    unfold is_trusted_domain
    rw [hp]
  rw [ht]
  unfold trustedChecks
  rw [hkw, hbl]
  simp

/-- Witness for C8 at `https://myuniversity.example`. -/
theorem edu_sounding_domain_trusted_witness :
    urlparse ("https://myuniversity.example") = some ⟨"https", "myuniversity.example"⟩ ∧
    eduKeywordHit (normalizeDomain ("myuniversity.example")) = true ∧
    eduSuspiciousHit (normalizeDomain ("myuniversity.example")) = false ∧
    is_trusted_domain ("https://myuniversity.example") = true :=
  ⟨by decide, by decide, by decide,
   edu_sounding_domain_trusted ("https://myuniversity.example")
     ⟨"https", "myuniversity.example"⟩ (by decide) (by decide) (by decide)⟩

/-- C9: the rule scorer's `dict.get` defaults are asymmetric — a missing
`Has_HTTPS` key defaults to 1 (so the +20 missing-HTTPS penalty is not
applied; an explicit 0 does incur +20), while every other missing key
defaults to 0 — and consequently a completely empty features mapping
incurs no feature-based penalty at all: its score is exactly the sum of
the three URL-based penalties. -/
theorem missing_feature_key_defaults (url : String) :
    emptyFeatures.has_HTTPS.getD 1 = 1 ∧
    emptyFeatures.url_Length.getD 0 = 0 ∧
    emptyFeatures.special_Chars.getD 0 = 0 ∧
    emptyFeatures.suspicious_Keywords.getD 0 = 0 ∧
    emptyFeatures.num_Subdomains.getD 0 = 0 ∧
    httpsPenalty (emptyFeatures.has_HTTPS.getD 1) = 0 ∧
    httpsPenalty 0 = 20 ∧
    ruleScore emptyFeatures url = ipPenalty url + tldPenalty url + asciiPenalty url := by
  have h1 : lengthPenalty (emptyFeatures.url_Length.getD 0) = 0 := by
    with_unfolding_all decide
  have h2 : specialPenalty (emptyFeatures.url_Length.getD 0)
      (emptyFeatures.special_Chars.getD 0) = 0 := by
    with_unfolding_all decide
  have h3 : keywordPenalty (emptyFeatures.suspicious_Keywords.getD 0) = 0 := by
    with_unfolding_all decide
  have h4 : httpsPenalty (emptyFeatures.has_HTTPS.getD 1) = 0 := by
    with_unfolding_all decide
  have h5 : subdomainPenalty (emptyFeatures.num_Subdomains.getD 0) = 0 := by
    with_unfolding_all decide
  refine ⟨rfl, rfl, rfl, rfl, rfl, h4, by with_unfolding_all decide, ?_⟩
  unfold ruleScore
  rw [h1, h2, h3, h4, h5]
  omega

/-- C10: the special-character density divides by `max(URL_Length, 1)`,
whose value is positive for every features mapping (including
`URL_Length = 0`, as produced for the empty URL), so the scorer's division
branch never divides by zero. -/
theorem special_ratio_denominator_positive (f : Features) :
    0 < max (f.url_Length.getD 0) (1 : ℚ) ∧
    special_char_ratio (f.special_Chars.getD 0) (f.url_Length.getD 0)
      = (f.special_Chars.getD 0) / max (f.url_Length.getD 0) 1 ∧
    (extract_features ("")).url_Length = some 0 ∧
    max (((extract_features ("")).url_Length).getD 0) (1 : ℚ) = 1 := by
  refine ⟨lt_of_lt_of_le one_pos (le_max_right _ _), rfl,
    by with_unfolding_all decide, ?_⟩
  have h : ((extract_features ("")).url_Length).getD 0 = (0 : ℚ) := by
    with_unfolding_all decide
  rw [h]
  exact max_eq_right (by norm_num)
